import Mathlib

/-!
Verification of the product-management backend (Go) against its
natural-language specification, via a shallow embedding in Lean 4.

Conventions of the embedding:
* Go `int`/`int64` are modelled as `Int` (no claim here depends on
  64-bit wraparound), Go `string` as `String`, Go pointers used as
  optional fields as `Option`.
* `decimal.Decimal` monetary values are modelled as `Int` numbers of
  cents (an exact fixed-point representation; the claims checked here
  never depend on the concrete decimal encoding).  The float64 filter
  bounds `min_price`/`max_price` are likewise modelled as cents.
* Timestamps are abstract clock ticks (`Nat`); the RFC3339 rendering of
  a timestamp is modelled by `toString` since no claim inspects the
  concrete format.
* The relational table is a `List Product`; the blob store is the list
  of stored object paths.
-/

deriving instance DecidableEq for Except

namespace ProductSpec

/-- Go constant `ProductStatusActive` (domain/product). -/
def productStatusActive : String := "Active"

/-- Go constant `ProductStatusInactive` (domain/product). -/
def productStatusInactive : String := "Inactive"

/-- The persisted `Product` entity (domain/product model).  `ProductStatus`
is a Go string type, so `status` is a `String` here. -/
structure Product where
  id : Int
  sku : String
  name : String
  description : Option String
  price : Int
  stock : Int
  category : String
  status : String
  imageURL : Option String
  createdAt : Nat
  updatedAt : Nat
deriving DecidableEq, Repr

/-- `UpdateProductRequest`: id plus optional (pointer) fields; a `none`
field is absent from the partial update. -/
structure UpdateProductRequest where
  id : Int
  sku : Option String := none
  name : Option String := none
  description : Option String := none
  price : Option Int := none
  stock : Option Int := none
  category : Option String := none
  status : Option String := none
  imageURL : Option String := none
deriving DecidableEq, Repr

/-- Errors surfaced by the postgresql repository layer: `pgx.ErrNoRows`
and the unique-violation pg error code 23505. -/
inductive RepoError where
  | noRows
  | uniqueViolation
deriving DecidableEq, Repr

/-- Whether the partial update supplies at least one optional field:
mirrors the `updates` assignment list in repository `Update` being
non-empty (repository/postgresql/product.go, lines 225-280). -/
def updateFieldsPresent (r : UpdateProductRequest) : Bool :=
  r.sku.isSome || r.name.isSome || r.description.isSome || r.price.isSome ||
  r.stock.isSome || r.category.isSome || r.status.isSome || r.imageURL.isSome

/-- Effect of the generated `UPDATE ... SET` statement on one matching
row: each present field is assigned its supplied value, absent fields
are not in the assignment list, and `updated_at = NOW()` is always
appended (repository `Update`).  `description` and `image_url` are
written as the supplied string (never reset to NULL by this statement). -/
def applyUpdate (r : UpdateProductRequest) (now : Nat) (p : Product) : Product :=
  { p with
    sku := r.sku.getD p.sku
    name := r.name.getD p.name
    description := match r.description with
      | some d => some d
      | none => p.description
    price := r.price.getD p.price
    stock := r.stock.getD p.stock
    category := r.category.getD p.category
    status := r.status.getD p.status
    imageURL := match r.imageURL with
      | some u => some u
      | none => p.imageURL
    updatedAt := now }

/-- Whether the UPDATE would violate the table's UNIQUE constraint on
`sku` (migration schema): a supplied sku that equals the sku of a row
other than the one being updated.  An update that does not supply `sku`
can never fire the constraint. -/
def skuCollides (db : List Product) (r : UpdateProductRequest) : Bool :=
  match r.sku with
  | some s => db.any fun p => !(p.id == r.id) && p.sku == s
  | none => false

/-- Repository `Update` (repository/postgresql/product.go, lines 222-299)
against the table with its UNIQUE constraint on `sku`: with no present
fields it returns success without touching the table; otherwise it
executes the UPDATE with `WHERE id = $n` — when the id matches a row
but the supplied sku duplicates another row's sku, `Exec` fails with pg
error 23505 (the unique violation the service maps to
`ErrProductSKUExists`); with no matching row zero rows are affected and
it returns `pgx.ErrNoRows`. -/
def repoUpdate (db : List Product) (r : UpdateProductRequest) (now : Nat) :
    Except RepoError (List Product) :=
  if updateFieldsPresent r = false then
    .ok db
  else if db.any (fun p => p.id == r.id) then
    if skuCollides db r then
      .error .uniqueViolation
    else
      .ok (db.map fun p => if p.id == r.id then applyUpdate r now p else p)
  else
    .error .noRows

/-- Repository `Delete` (repository/postgresql/product.go, lines 301-319):
`pgx.ErrNoRows` when zero rows affected. -/
def repoDelete (db : List Product) (id : Int) : Except RepoError (List Product) :=
  if db.any (fun p => p.id == id) then
    .ok (db.filter fun p => !(p.id == id))
  else
    .error .noRows

/-- Repository `GetByID` (repository/postgresql/product.go, lines 48-80):
single-row select by primary key, `pgx.ErrNoRows` when absent. -/
def repoGetByID (db : List Product) (id : Int) : Except RepoError Product :=
  match db.find? (fun p => p.id == id) with
  | some p => .ok p
  | none => .error .noRows

/-- Repository `GetBySKU` (repository/postgresql/product.go, lines 82-114). -/
def repoGetBySKU (db : List Product) (sku : String) : Except RepoError Product :=
  match db.find? (fun p => p.sku == sku) with
  | some p => .ok p
  | none => .error .noRows

/-- Repository `Create` (repository/postgresql/product.go, lines 22-46)
together with the table's unique constraint on `sku`: a colliding insert
fails with pg error 23505, otherwise the store assigns id and
timestamps. -/
def repoCreate (db : List Product) (p : Product) (now : Nat) (newId : Int) :
    Except RepoError (Product × List Product) :=
  if db.any (fun q => q.sku == p.sku) then
    .error .uniqueViolation
  else
    let created := { p with id := newId, createdAt := now, updatedAt := now }
    .ok (created, db ++ [created])

/-! ### Validator embedding (domain/product DTOs `Validate` methods) -/

/-- One `(field, message)` entry of a `validator.ValidationErrors`
collection. -/
structure ValidationError where
  field : String
  message : String
deriving DecidableEq, Repr

/-- Modelled from the spec: the helper `validator.IsEmpty` (the
`internal/pkg/validator` package is not under src/; only its callers
are).  Per §4.1 it is the "non-empty" check on a string field; modelled
as emptiness after trimming whitespace.  No claim settled here depends
on the exact emptiness predicate. -/
def isEmptyStr (s : String) : Bool := s.data.all Char.isWhitespace

/-- Modelled from the spec: the helper `validator.IsInSlice` (not under
src/): membership of a string in a fixed allow-list (§4.1 sort
allow-list check). -/
def isInSlice (s : String) (l : List String) : Bool := l.contains s

/-- Maximum price, NUMERIC(10,2) upper bound 99,999,999.99, in cents. -/
def maxPriceCents : Int := 9999999999

/-- Go `len` on a string counts bytes; the 100-character limits in the
validators are byte-length checks. -/
def goLen (s : String) : Nat := s.utf8ByteSize

/-- `CreateProductRequest` (domain/product DTO). -/
structure CreateProductRequest where
  sku : String
  name : String
  description : Option String := none
  price : Int
  stock : Int
  category : String
  status : String
deriving DecidableEq, Repr

/-- `CreateProductRequest.Validate`: appends one entry per violated rule,
in source order, and fails only if the collection is non-empty. -/
def createValidate (r : CreateProductRequest) : List ValidationError :=
  (if isEmptyStr r.sku then [⟨"sku", "sku is required"⟩] else [])
  ++ (if goLen r.sku > 100 then [⟨"sku", "sku must not exceed 100 characters"⟩] else [])
  ++ (if isEmptyStr r.name then [⟨"name", "name is required"⟩] else [])
  ++ (if r.price < 0 then [⟨"price", "price must be greater than or equal to 0"⟩] else [])
  ++ (if r.price > maxPriceCents then [⟨"price", "price must not exceed 99,999,999.99"⟩] else [])
  ++ (if r.stock < 0 then [⟨"stock", "stock must be greater than or equal to 0"⟩] else [])
  ++ (if isEmptyStr r.category then [⟨"category", "category is required"⟩] else [])
  ++ (if goLen r.category > 100 then [⟨"category", "category must not exceed 100 characters"⟩] else [])
  ++ (if r.status ≠ productStatusActive ∧ r.status ≠ productStatusInactive then
        [⟨"status", "status must be either 'Active' or 'Inactive'"⟩] else [])

/-- `UpdateProductRequest.Validate`: per-field rules applied only to
present fields, collected in source order. -/
def updateValidate (r : UpdateProductRequest) : List ValidationError :=
  (if r.id ≤ 0 then [⟨"id", "id must be a positive integer"⟩] else [])
  ++ (match r.sku with
      | some s =>
        (if isEmptyStr s then [⟨"sku", "sku must not be empty"⟩] else [])
        ++ (if goLen s > 100 then [⟨"sku", "sku must not exceed 100 characters"⟩] else [])
      | none => [])
  ++ (match r.name with
      | some n => if isEmptyStr n then [⟨"name", "name must not be empty"⟩] else []
      | none => [])
  ++ (match r.price with
      | some v => if v < 0 then [⟨"price", "price must be greater than or equal to 0"⟩] else []
      | none => [])
  ++ (match r.price with
      | some v => if v > maxPriceCents then [⟨"price", "price must not exceed 99,999,999.99"⟩] else []
      | none => [])
  ++ (match r.stock with
      | some v => if v < 0 then [⟨"stock", "stock must be greater than or equal to 0"⟩] else []
      | none => [])
  ++ (match r.category with
      | some c =>
        (if isEmptyStr c then [⟨"category", "category must not be empty"⟩] else [])
        ++ (if goLen c > 100 then [⟨"category", "category must not exceed 100 characters"⟩] else [])
      | none => [])
  ++ (match r.status with
      | some s =>
        if s ≠ productStatusActive ∧ s ≠ productStatusInactive then
          [⟨"status", "status must be either 'Active' or 'Inactive'"⟩] else []
      | none => [])
  ++ (match r.imageURL with
      | some u => if goLen u > 2048 then [⟨"image_url", "image_url must not exceed 2048 characters"⟩] else []
      | none => [])

/-- `ListProductFilter` (domain/product DTO).  `minPrice`/`maxPrice` are
float64 in Go, modelled as cents. -/
structure ListProductFilter where
  name : Option String := none
  sku : Option String := none
  category : Option String := none
  status : Option String := none
  minPrice : Option Int := none
  maxPrice : Option Int := none
  page : Int := 0
  limit : Int := 0
  sortBy : String := ""
  sortOrder : String := ""
deriving DecidableEq, Repr

/-- The fixed sort allow-list of `ListProductFilter.Validate`. -/
def validSortFields : List String :=
  ["id", "sku", "name", "price", "stock", "category", "status", "created_at", "updated_at"]

/-- The fixed sort-order allow-list of `ListProductFilter.Validate`. -/
def validSortOrders : List String := ["asc", "desc"]

/-- The limit value after the `f.Limit == 0` default (applied before the
over-100 check, mirroring statement order in the source). -/
def defaultedLimit (f : ListProductFilter) : Int :=
  if f.limit == 0 then 20 else f.limit

/-- Sort field after defaulting: unsupplied means `created_at`. -/
def validatedSortBy (f : ListProductFilter) : String :=
  if f.sortBy == "" then "created_at" else f.sortBy

/-- Sort order after defaulting: unsupplied means `desc`. -/
def validatedSortOrder (f : ListProductFilter) : String :=
  if f.sortOrder == "" then "desc" else f.sortOrder

/-- Page violations: a negative page (zero is defaulted instead). -/
def pageErrs (f : ListProductFilter) : List ValidationError :=
  if f.page < 0 then [⟨"page", "page must be a positive number"⟩] else []

/-- Limit violations: a negative limit (zero is defaulted instead). -/
def limitNegErrs (f : ListProductFilter) : List ValidationError :=
  if f.limit < 0 then [⟨"limit", "limit must be a positive number"⟩] else []

/-- Limit violations: over 100, checked after the zero-default. -/
def limitMaxErrs (f : ListProductFilter) : List ValidationError :=
  if defaultedLimit f > 100 then [⟨"limit", "limit must not exceed 100"⟩] else []

/-- Minimum-price violations. -/
def minPriceErrs (f : ListProductFilter) : List ValidationError :=
  match f.minPrice with
  | some v => if v < 0 then [⟨"min_price", "min_price must be greater than or equal to 0"⟩] else []
  | none => []

/-- Maximum-price violations. -/
def maxPriceErrs (f : ListProductFilter) : List ValidationError :=
  match f.maxPrice with
  | some v => if v < 0 then [⟨"max_price", "max_price must be greater than or equal to 0"⟩] else []
  | none => []

/-- Inverted price-range violations (both bounds present). -/
def priceRangeErrs (f : ListProductFilter) : List ValidationError :=
  match f.minPrice, f.maxPrice with
  | some lo, some hi =>
    if lo > hi then [⟨"price", "min_price must be less than or equal to max_price"⟩] else []
  | _, _ => []

/-- Sort-field violations: a supplied `sort_by` outside the allow-list. -/
def sortByErrs (f : ListProductFilter) : List ValidationError :=
  if f.sortBy ≠ "" ∧ isInSlice f.sortBy validSortFields = false then
    [⟨"sort_by", "sort_by must be one of: id, sku, name, price, stock, category, status, created_at, updated_at"⟩]
  else []

/-- Sort-order violations: a supplied `sort_order` other than asc/desc. -/
def sortOrderErrs (f : ListProductFilter) : List ValidationError :=
  if f.sortOrder ≠ "" ∧ isInSlice f.sortOrder validSortOrders = false then
    [⟨"sort_order", "sort_order must be one of: asc, desc"⟩]
  else []

/-- Status violations: a present status outside the enumeration. -/
def statusErrs (f : ListProductFilter) : List ValidationError :=
  match f.status with
  | some s =>
    if s ≠ productStatusActive ∧ s ≠ productStatusInactive then
      [⟨"status", "status must be either 'Active' or 'Inactive'"⟩] else []
  | none => []

/-- `ListProductFilter.Validate`: collects violations in source order and
applies the page/limit/sort defaults in place; returns the defaulted
filter together with the collection. -/
def filterValidate (f : ListProductFilter) : ListProductFilter × List ValidationError :=
  ({ f with
      page := if f.page == 0 then 1 else f.page
      limit := defaultedLimit f
      sortBy := validatedSortBy f
      sortOrder := validatedSortOrder f },
   pageErrs f ++ limitNegErrs f ++ limitMaxErrs f
     ++ minPriceErrs f ++ maxPriceErrs f ++ priceRangeErrs f
     ++ sortByErrs f ++ sortOrderErrs f ++ statusErrs f)

/-- Whether the collection carries an entry keyed by the given field. -/
def hasFieldErr (errs : List ValidationError) (f : String) : Bool :=
  errs.any fun e => e.field == f

/-! ### Postgres LIKE/ILIKE semantics and the `GetAll` predicate -/

/-- Does the continuation accept some suffix of the input?  Used for the
SQL wildcard `%`, which consumes any (possibly empty) prefix. -/
def suffixAny (f : List Char → Bool) : List Char → Bool
  | [] => f []
  | c :: t => f (c :: t) || suffixAny f t

/-- SQL LIKE pattern matching over character lists: `%` matches any
substring, `_` matches one character, any other pattern character
matches itself.  This is the semantics Postgres gives the patterns the
repository builds. -/
def likeMatch : List Char → List Char → Bool
  | [], s => s.isEmpty
  | c :: ps, s =>
    if c == '%' then suffixAny (likeMatch ps) s
    else if c == '_' then
      match s with
      | [] => false
      | _ :: t => likeMatch ps t
    else
      match s with
      | [] => false
      | d :: t => c == d && likeMatch ps t

/-- Postgres `ILIKE`: LIKE after case-folding both operands. -/
def sqlIlike (s pat : String) : Bool :=
  likeMatch (pat.data.map Char.toLower) (s.data.map Char.toLower)

/-- The conjunctive WHERE predicate built by repository `GetAll`
(repository/postgresql/product.go, lines 119-162): name and sku via
`ILIKE '%' || v || '%'`, category likewise via `ILIKE '%' || v || '%'`,
status by equality, price by inclusive bounds; only present filter
fields contribute a clause. -/
def matchesFilter (f : ListProductFilter) (p : Product) : Bool :=
  (match f.name with
    | none => true
    | some v => sqlIlike p.name ("%" ++ v ++ "%")) &&
  (match f.sku with
    | none => true
    | some v => sqlIlike p.sku ("%" ++ v ++ "%")) &&
  (match f.category with
    | none => true
    | some v => sqlIlike p.category ("%" ++ v ++ "%")) &&
  (match f.status with
    | none => true
    | some v => p.status == v) &&
  (match f.minPrice with
    | none => true
    | some v => v ≤ p.price) &&
  (match f.maxPrice with
    | none => true
    | some v => p.price ≤ v)

/-- The identifier interpolated as the ORDER BY column by `GetAll`
(lines 171-187): the filter's sort field, or `created_at` when unset. -/
def repoOrderColumn (f : ListProductFilter) : String :=
  if f.sortBy ≠ "" then f.sortBy else "created_at"

/-- The identifier interpolated as the ORDER BY direction by `GetAll`:
the filter's sort order, or `DESC` when unset. -/
def repoOrderDir (f : ListProductFilter) : String :=
  if f.sortOrder ≠ "" then f.sortOrder else "DESC"

/-- Comparison of two rows on one allow-listed column. -/
def cmpColumn (col : String) (a b : Product) : Ordering :=
  match col with
  | "id" => compare a.id b.id
  | "sku" => compare a.sku b.sku
  | "name" => compare a.name b.name
  | "price" => compare a.price b.price
  | "stock" => compare a.stock b.stock
  | "category" => compare a.category b.category
  | "status" => compare a.status b.status
  | "created_at" => compare a.createdAt b.createdAt
  | "updated_at" => compare a.updatedAt b.updatedAt
  | _ => .eq

/-- ORDER BY as a total preorder: ascending keeps non-greater first,
`desc`/`DESC` keeps non-lesser first; ties stay in store order. -/
def orderByLE (col dir : String) (a b : Product) : Bool :=
  if dir == "desc" || dir == "DESC" then
    cmpColumn col a b ≠ .lt
  else
    cmpColumn col a b ≠ .gt

/-- Stable insertion into a sorted run. -/
def insertLE (le : Product → Product → Bool) (x : Product) : List Product → List Product
  | [] => [x]
  | y :: ys => if le x y then x :: y :: ys else y :: insertLE le x ys

/-- Stable sort (the store may order ties arbitrarily; stability is one
admissible choice per §4.2). -/
def sortByLE (le : Product → Product → Bool) (l : List Product) : List Product :=
  l.foldr (insertLE le) []

/-- Repository `GetAll` (repository/postgresql/product.go, lines
116-220): filter, count under the same predicate ignoring pagination,
then ORDER BY the (defaulted) sort column/direction with
`LIMIT limit OFFSET (page-1)*limit`.  Returns (page of rows, total). -/
def repoGetAll (db : List Product) (f : ListProductFilter) :
    List Product × Int :=
  let filtered := db.filter (matchesFilter f)
  let total : Int := filtered.length
  let sorted := sortByLE (orderByLE (repoOrderColumn f) (repoOrderDir f)) filtered
  let paged := (sorted.drop ((f.page - 1) * f.limit).toNat).take f.limit.toNat
  (paged, total)

/-! ### Service layer (service/product/service.go) -/

/-- The error values a service operation can surface to the boundary:
the typed domain errors of domain/product plus `validator`
collections and untyped `fmt.Errorf` wrappers. -/
inductive SvcError where
  | validation (errs : List ValidationError)
  | productNotFound
  | skuExists
  | invalidProductStatus
  | productIDRequired
  | invalidPrice
  | invalidStock
  | invalidImageFormat
  | imageTooLarge
  | imageRequired
  | wrapped (msg : String)
deriving DecidableEq, Repr

/-- The response view of a product.  Timestamps are the formatted
strings of the stored ticks. -/
structure ProductResponse where
  id : Int
  sku : String
  name : String
  description : Option String
  price : Int
  stock : Int
  category : String
  status : String
  imageURL : Option String
  createdAt : String
  updatedAt : String
deriving DecidableEq, Repr

/-- Stand-in for `time.Format("2006-01-02T15:04:05Z07:00")` on abstract
ticks; no claim inspects the concrete format. -/
def formatRFC3339 (t : Nat) : String := toString t

/-- The response projection the service spells out inline (identically)
in CreateProduct, GetProduct, GetProductBySKU and ListProducts: all
fields copied, except that a nil or empty stored `image_url` projects to
an absent `ImageURL` (service/product/service.go, e.g. lines 137-154). -/
def toProductResponse (p : Product) : ProductResponse :=
  { id := p.id
    sku := p.sku
    name := p.name
    description := p.description
    price := p.price
    stock := p.stock
    category := p.category
    status := p.status
    imageURL := match p.imageURL with
      | none => none
      | some s => if s == "" then none else some s
    createdAt := formatRFC3339 p.createdAt
    updatedAt := formatRFC3339 p.updatedAt }

/-- `CreateProduct` (service/product/service.go, lines 116-155): build
the row from the request (no image), insert, map pg 23505 to the SKU
conflict, project the created row. -/
def createProduct (db : List Product) (req : CreateProductRequest)
    (now : Nat) (newId : Int) :
    Except SvcError (ProductResponse × List Product) :=
  match repoCreate db
    { id := 0, sku := req.sku, name := req.name, description := req.description,
      price := req.price, stock := req.stock, category := req.category,
      status := req.status, imageURL := none, createdAt := 0, updatedAt := 0 }
    now newId with
  | .error .uniqueViolation => .error .skuExists
  | .error _ => .error (.wrapped "failed to create product")
  | .ok (created, db1) => .ok (toProductResponse created, db1)

/-- `GetProduct` (lines 157-184): delegate, map `pgx.ErrNoRows` to
`ErrProductNotFound`, project. -/
def getProduct (db : List Product) (id : Int) : Except SvcError ProductResponse :=
  match repoGetByID db id with
  | .error .noRows => .error .productNotFound
  | .error _ => .error (.wrapped "failed to get product")
  | .ok p => .ok (toProductResponse p)

/-- `GetProductBySKU` (lines 186-213). -/
def getProductBySKU (db : List Product) (sku : String) : Except SvcError ProductResponse :=
  match repoGetBySKU db sku with
  | .error .noRows => .error .productNotFound
  | .error _ => .error (.wrapped "failed to get product by SKU")
  | .ok p => .ok (toProductResponse p)

/-- Case-folding of a string (Go/SQL lower-casing), written over the
character list so that it evaluates inside the kernel. -/
def strToLower (s : String) : String := String.mk (s.data.map Char.toLower)

/-- The characters after the first occurrence of `sep` in `s`, when
`sep` occurs at all. -/
def afterFirst (sep : List Char) : List Char → Option (List Char)
  | [] => none
  | c :: t =>
    if sep.isPrefixOf (c :: t) then some ((c :: t).drop sep.length)
    else afterFirst sep t

/-- The characters before the first occurrence of `sep` in `s` (all of
`s` when `sep` does not occur). -/
def upToFirst (sep : List Char) : List Char → List Char
  | [] => []
  | c :: t =>
    if sep.isPrefixOf (c :: t) then []
    else c :: upToFirst sep t

/-- The old-reference rewrite both image flows perform before calling
`DeleteFile` (service/product/service.go, lines 100-106, 252-258,
286-292): for a full http(s) URL, `strings.Split(url, "/uploads/")` is
taken and, when it has more than one part, the second part (the segment
between the first and second occurrence of `/uploads/`, or the rest of
the string) replaces the reference; anything else passes through. -/
def extractUploadsPath (s : String) : String :=
  if "http://".data.isPrefixOf s.data || "https://".data.isPrefixOf s.data then
    match afterFirst "/uploads/".data s.data with
    | some rest => String.mk (upToFirst "/uploads/".data rest)
    | none => s
  else s

/-- Modelled from the spec: `file.FileService.UploadProductImage`
(internal/service/file is not under src/; only its interface, callers
and mocks are).  Per §4.3/§4.4 it stores the bytes under a
deterministic per-product relative path; the in-repo service tests pin
it to `products/{productID}/{filename}`. -/
def uploadProductImage (productID filename : String) : String :=
  "products/" ++ productID ++ "/" ++ filename

/-- Modelled from the spec: `file.FileService.GetFileURL` (not under
src/).  Per §4.3 (`URLFor`) and storage/local.go `GetURL` it is
base URL + "/" + relative path. -/
def getFileURL (baseURL path : String) : String := baseURL ++ "/" ++ path

/-- Blob-store contents after storing bytes under a path (local.go
`Upload`: creating an existing file overwrites it). -/
def blobStorePut (blobs : List String) (path : String) : List String :=
  if blobs.contains path then blobs else path :: blobs

/-- Blob-store contents after `DeleteFile` (local.go `Delete`:
idempotent; removing an absent object succeeds). -/
def blobStoreDelete (blobs : List String) (path : String) : List String :=
  blobs.filter fun q => !(q == path)

/-- One repository or blob-store call made by `UploadImage`, in order. -/
inductive CallEvent where
  | repoGetByIDCall (id : Int)
  | blobUploadCall (path : String)
  | getURLCall (path : String)
  | repoUpdateCall (id : Int)
  | blobDeleteCall (path : String)
deriving DecidableEq, Repr

/-- Final state of an `UploadImage` run: the Go error (none on
success), the table, the blob store, and the ordered trace of
store/blob calls that were made. -/
structure UploadOutcome where
  res : Option SvcError
  db : List Product
  blobs : List String
  events : List CallEvent
deriving DecidableEq, Repr

/-- Maximum upload size: 5 MiB (`maxFileSize` in `UploadImage`). -/
def maxFileSize : Int := 5 * 1024 * 1024

/-- The extension allow-list of `UploadImage`. -/
def allowedExts : List String := [".jpg", ".jpeg", ".png", ".gif"]

/-- `filepath.Ext`: the suffix starting at the final dot of the final
path element; empty when that element has no dot. -/
def filepathExtAux (acc : List Char) : List Char → String
  | [] => ""
  | c :: rest =>
    if c == '.' then String.mk ('.' :: acc)
    else if c == '/' then ""
    else filepathExtAux (c :: acc) rest

/-- `filepath.Ext` over a whole filename (scan from the end). -/
def filepathExt (s : String) : String := filepathExtAux [] s.data.reverse

/-- The multipart file header: name and byte size. -/
structure FileHeader where
  filename : String
  size : Int
deriving DecidableEq, Repr

/-- `UploadImage` (service/product/service.go, lines 33-114): nil-header,
size and extension gates (in that order, before any store or blob
call); then fetch the product, store the bytes under the deterministic
`product-{id}-image{ext}` name, compute the URL, commit it to the row,
and finally best-effort delete the old reference whenever one was
present and non-empty (the failure of that delete is only logged, so it
is modelled as succeeding). -/
def uploadImage (baseURL : String) (db : List Product) (blobs : List String)
    (id : Int) (fileHeader : Option FileHeader) (now : Nat) : UploadOutcome :=
  match fileHeader with
  | none => ⟨some .imageRequired, db, blobs, []⟩
  | some fh =>
    if fh.size > maxFileSize then
      ⟨some .imageTooLarge, db, blobs, []⟩
    else
      let ext := strToLower (filepathExt fh.filename)
      if allowedExts.contains ext = false then
        ⟨some .invalidImageFormat, db, blobs, []⟩
      else
        match repoGetByID db id with
        | .error _ =>
          ⟨some .productNotFound, db, blobs, [.repoGetByIDCall id]⟩
        | .ok existingProduct =>
          let uniqueFilename := "product-" ++ toString id ++ "-image" ++ ext
          let uploadedPath := uploadProductImage (toString id) uniqueFilename
          let blobs1 := blobStorePut blobs uploadedPath
          let imageURL := getFileURL baseURL uploadedPath
          let events1 : List CallEvent :=
            [.repoGetByIDCall id, .blobUploadCall uploadedPath,
             .getURLCall uploadedPath, .repoUpdateCall id]
          match repoUpdate db { id := id, imageURL := some imageURL } now with
          | .error .noRows => ⟨some .productNotFound, db, blobs1, events1⟩
          | .error _ => ⟨some (.wrapped "failed to update product image URL"), db, blobs1, events1⟩
          | .ok db1 =>
            match existingProduct.imageURL with
            | some old =>
              if old == "" then ⟨none, db1, blobs1, events1⟩
              else
                let oldImagePath := extractUploadsPath old
                ⟨none, db1, blobStoreDelete blobs1 oldImagePath,
                 events1 ++ [.blobDeleteCall oldImagePath]⟩
            | none => ⟨none, db1, blobs1, events1⟩

/-- `DeleteImage` (service/product/service.go, lines 269-314): fetch
(`ErrProductNotFound` when absent); when no image is set (nil or empty
`image_url`) fail with the untyped error string; otherwise delete the
blob (failure would propagate; the local store's delete succeeds) and
commit an empty `image_url`. -/
def deleteImage (db : List Product) (blobs : List String) (id : Int) (now : Nat) :
    Except SvcError (List Product × List String) :=
  match repoGetByID db id with
  | .error .noRows => .error .productNotFound
  | .error _ => .error (.wrapped "failed to get product")
  | .ok product =>
    if product.imageURL.getD "" == "" then
      .error (.wrapped "product has no image to delete")
    else
      let imagePath := extractUploadsPath (product.imageURL.getD "")
      let blobs1 := blobStoreDelete blobs imagePath
      match repoUpdate db { id := id, imageURL := some "" } now with
      | .error .noRows => .error .productNotFound
      | .error _ => .error (.wrapped "failed to update product image URL")
      | .ok db1 => .ok (db1, blobs1)

/-- The paginated list response. -/
structure ListProductResponse where
  totalCount : Int
  page : Int
  limit : Int
  totalPages : Int
  showing : String
  products : List ProductResponse
deriving DecidableEq, Repr

/-- `ListProducts` (service/product/service.go, lines 316-361) given the
repository's result: project every row, compute
`total_pages = (total + limit - 1) / limit` (Go integer division) and
the "Showing X to Y of Z products" string from page, limit and the
number of returned rows. -/
def listProducts (f : ListProductFilter) (products : List Product)
    (total : Int) : ListProductResponse :=
  let productResponses := products.map toProductResponse
  let totalPages := (total + f.limit - 1).tdiv f.limit
  let startIdx := (f.page - 1) * f.limit + 1
  let endIdx := startIdx + (productResponses.length : Int) - 1
  let showing := "Showing " ++ toString startIdx ++ " to " ++ toString endIdx
    ++ " of " ++ toString total ++ " products"
  { totalCount := total
    page := f.page
    limit := f.limit
    totalPages := totalPages
    showing := showing
    products := productResponses }

/-! ### Boundary error mapping (handler/http/response `HandleError`) -/

/-- `HandleError` (response/error.go): validation collections become the
per-field validation response; each listed typed domain error gets its
fixed status (404 not-found, 409 conflict, 400 client errors); any
other error falls to the generic internal-error branch.  The numeric
statuses of the response helpers (the response package is not under
src/) are modelled from the spec's §6 boundary contract: 422 for
validation detail, 400/404/409 for the named branches, 500 internal. -/
def handleError : SvcError → Int
  | .validation _ => 422
  | .productNotFound => 404
  | .skuExists => 409
  | .invalidProductStatus => 400
  | .productIDRequired => 400
  | .invalidPrice => 400
  | .invalidStock => 400
  | .invalidImageFormat => 400
  | .imageTooLarge => 400
  | .imageRequired => 400
  | .wrapped _ => 500

/-- The ListProducts handler path (handler `ListProducts`): validate the
filter (rejecting on any violation, before any service or repository
call) and otherwise run the service on the defaulted filter. -/
def listProductsHandler (db : List Product) (f : ListProductFilter) :
    Except (List ValidationError) ListProductResponse :=
  let v := filterValidate f
  if v.2.isEmpty then
    let r := repoGetAll db v.1
    .ok (listProducts v.1 r.1 r.2)
  else
    .error v.2

/-! ### Lemmas about LIKE pattern matching -/

/-- A pattern character with no wildcard meaning. -/
def plainChar (c : Char) : Bool := !(c == '%') && !(c == '_')

theorem suffixAny_eq_true (f : List Char → Bool) (s : List Char) :
    suffixAny f s = true ↔ ∃ t, t <:+ s ∧ f t = true := by
  induction s with
  | nil =>
    simp only [suffixAny]
    constructor
    · intro h
      exact ⟨[], List.nil_suffix, h⟩
    · rintro ⟨t, ht, hf⟩
      obtain rfl : t = [] := List.suffix_nil.mp ht
      exact hf
  | cons c cs ih =>
    simp only [suffixAny, Bool.or_eq_true, ih]
    constructor
    · rintro (h | ⟨t, ht, hf⟩)
      · exact ⟨c :: cs, List.suffix_refl _, h⟩
      · exact ⟨t, ht.trans (List.suffix_cons c cs), hf⟩
    · rintro ⟨t, ht, hf⟩
      rcases List.suffix_cons_iff.mp ht with rfl | ht'
      · exact Or.inl hf
      · exact Or.inr ⟨t, ht', hf⟩

theorem likeMatch_lit_percent (x : List Char) (s : List Char)
    (hx : x.all plainChar = true) :
    likeMatch (x ++ ['%']) s = true ↔ x <+: s := by
  induction x generalizing s with
  | nil =>
    simp only [List.nil_append, likeMatch, if_pos (by decide : ('%' == '%') = true),
      suffixAny_eq_true]
    constructor
    · intro _
      exact List.nil_prefix
    · intro _
      exact ⟨[], List.nil_suffix, by simp [likeMatch]⟩
  | cons c x ih =>
    have hc : plainChar c = true ∧ x.all plainChar = true := by
      simpa [List.all_cons, Bool.and_eq_true] using hx
    have hc1 : (c == '%') = false := by
      have := hc.1
      unfold plainChar at this
      simp only [Bool.and_eq_true, Bool.not_eq_true'] at this
      exact this.1
    have hc2 : (c == '_') = false := by
      have := hc.1
      unfold plainChar at this
      simp only [Bool.and_eq_true, Bool.not_eq_true'] at this
      exact this.2
    cases s with
    | nil =>
      simp only [List.cons_append, likeMatch, hc1, hc2, Bool.false_eq_true, if_false]
      simp [List.prefix_nil]
    | cons d t =>
      simp only [List.cons_append, likeMatch, hc1, hc2, Bool.false_eq_true, if_false,
        Bool.and_eq_true, beq_iff_eq, List.cons_prefix_cons]
      exact and_congr_right fun _ => ih t hc.2

theorem likeMatch_contains (x s : List Char) (hx : x.all plainChar = true) :
    likeMatch ('%' :: (x ++ ['%'])) s = true ↔ x <:+: s := by
  simp only [likeMatch, if_pos (by decide : ('%' == '%') = true), suffixAny_eq_true]
  constructor
  · rintro ⟨t, hts, hf⟩
    exact List.infix_iff_prefix_suffix.mpr ⟨t, (likeMatch_lit_percent x t hx).mp hf, hts⟩
  · intro hinf
    obtain ⟨t, hpre, hsuf⟩ := List.infix_iff_prefix_suffix.mp hinf
    exact ⟨t, hsuf, (likeMatch_lit_percent x t hx).mpr hpre⟩

/-! ### Claim C3 (stated after the sample data below) -/

theorem data_append_wrap_percent (v : String) :
    ("%" ++ v ++ "%").data = '%' :: (v.data ++ ['%']) := by
  have hp : "%".data = ['%'] := rfl
  rw [String.data_append, String.data_append, hp]
  simp

theorem pattern_map_toLower (v : String) :
    (("%" ++ v ++ "%").data.map Char.toLower)
      = '%' :: ((v.data.map Char.toLower) ++ ['%']) := by
  rw [data_append_wrap_percent]
  simp only [List.map_cons, List.map_append, List.map_cons, List.map_nil]
  rw [show Char.toLower '%' = '%' from by decide]

/-! ### Sample data used by witnesses and counterexamples -/

/-- A concrete stored product with no image. -/
def sampleElectronics : Product :=
  { id := 1, sku := "SKU-001", name := "TV", description := none,
    price := 10000, stock := 5, category := "Electronics", status := "Active",
    imageURL := none, createdAt := 0, updatedAt := 0 }

/-- A second stored product with a distinct id and sku. -/
def sampleBooks : Product :=
  { id := 2, sku := "SKU-002", name := "Novel", description := none,
    price := 2000, stock := 3, category := "Books", status := "Active",
    imageURL := none, createdAt := 0, updatedAt := 0 }

/-- The configured public base URL of the blob store. -/
def demoBaseURL : String := "http://localhost:8080/uploads"

/-- The URL committed by a previous upload of a `.jpg` image for product
1 (deterministic filename). -/
def demoOldURL : String := "http://localhost:8080/uploads/products/1/product-1-image.jpg"

/-- Product 1 with that image attached. -/
def demoImaged : Product := { sampleElectronics with imageURL := some demoOldURL }

/-- The deterministic storage path a `.jpg` upload for product 1 uses. -/
def demoNewPath : String := "products/1/product-1-image.jpg"

/-- C3 counterexample: a category filter value that is a strict
substring of a stored category matches that product under the list
predicate, although the stored category equals neither the value nor
its case-folding — refuting "matches exactly the products whose
category equals that value". -/
theorem claim3_counterexample :
    matchesFilter { category := some "Electro", page := 1, limit := 20 }
        sampleElectronics = true
    ∧ sampleElectronics.category ≠ "Electro"
    ∧ sampleElectronics.category.data.map Char.toLower
        ≠ "Electro".data.map Char.toLower := by
  decide

/-- C3 amended: for a list filter that supplies only a category value
(one without SQL wildcard characters), the list predicate matches
exactly the products whose case-folded category CONTAINS the case-folded
value as a substring — the same case-insensitive substring semantics as
the name and sku filters, with case-insensitive equality only a special
case. -/
theorem claim3_category_substring (f : ListProductFilter) (v : String)
    (p : Product)
    (hcat : f.category = some v)
    (hname : f.name = none) (hsku : f.sku = none) (hstatus : f.status = none)
    (hmin : f.minPrice = none) (hmax : f.maxPrice = none)
    (hv : (v.data.map Char.toLower).all plainChar = true) :
    matchesFilter f p = true ↔
      (v.data.map Char.toLower) <:+: (p.category.data.map Char.toLower) := by
  simp only [matchesFilter, hcat, hname, hsku, hstatus, hmin, hmax,
    Bool.true_and, Bool.and_true]
  unfold sqlIlike
  rw [pattern_map_toLower, likeMatch_contains _ _ hv]

/-- C3 witness. -/
theorem claim3_witness :
    matchesFilter { category := some "Electro", page := 1, limit := 20 }
        sampleElectronics = true
      ↔ ("Electro".data.map Char.toLower)
          <:+: (sampleElectronics.category.data.map Char.toLower) :=
  claim3_category_substring { category := some "Electro", page := 1, limit := 20 }
    "Electro" sampleElectronics rfl rfl rfl rfl rfl rfl (by decide)

/-! ### Claim C1 -/

/-- C1: when a product's stored image reference already equals the
deterministic path a new same-extension upload is stored under,
`UploadImage` still best-effort deletes that path after committing the
new `image_url`: the run succeeds, the committed URL is unchanged, and
the just-stored object is gone from the blob store (`blobs = []`), with
the delete of exactly the newly stored path as the final call.  This
contradicts the claim (and spec step 7), which requires no deletion when
the prior reference equals the new stored path. -/
theorem claim1_same_ext_reupload_deletes_committed_object :
    uploadImage demoBaseURL [demoImaged] [demoNewPath] 1
        (some { filename := "photo.jpg", size := 100 }) 5
      = { res := none,
          db := [{ demoImaged with updatedAt := 5 }],
          blobs := [],
          events := [.repoGetByIDCall 1, .blobUploadCall demoNewPath,
                     .getURLCall demoNewPath, .repoUpdateCall 1,
                     .blobDeleteCall demoNewPath] }
    ∧ extractUploadsPath demoOldURL = demoNewPath
    ∧ getFileURL demoBaseURL demoNewPath = demoOldURL := by
  decide

/-! ### Claim C2 -/

/-- C2 counterexample: `DeleteImage` on a stored product whose
`image_url` is nil fails with the untyped error string
`product has no image to delete`, and `HandleError` sends that error to
its default internal-error branch (500) — not to a 400 client-error
branch as the claim states. -/
theorem claim2_counterexample :
    deleteImage [sampleElectronics] [] 1 0
      = .error (.wrapped "product has no image to delete")
    ∧ handleError (.wrapped "product has no image to delete") = 500
    ∧ handleError (.wrapped "product has no image to delete") ≠ 400 := by
  decide

/-- C2 amended: for every product whose image_url is null or empty,
`DeleteImage` fails with the generic untyped error
`product has no image to delete`, which the boundary's `HandleError`
maps to the generic internal-error branch (500), not to a 400
client-error response. -/
theorem claim2_no_image_maps_to_internal (db : List Product)
    (blobs : List String) (id : Int) (now : Nat) (p : Product)
    (hfind : db.find? (fun q => q.id == id) = some p)
    (hnoimg : p.imageURL.getD "" = "") :
    deleteImage db blobs id now = .error (.wrapped "product has no image to delete")
    ∧ handleError (.wrapped "product has no image to delete") = 500 := by
  refine ⟨?_, rfl⟩
  simp [deleteImage, repoGetByID, hfind, hnoimg]

/-- C2 witness. -/
theorem claim2_witness :
    deleteImage [demoImaged, { sampleElectronics with id := 2 }] [] 2 3
      = .error (.wrapped "product has no image to delete")
    ∧ handleError (.wrapped "product has no image to delete") = 500 :=
  claim2_no_image_maps_to_internal [demoImaged, { sampleElectronics with id := 2 }] [] 2 3
    { sampleElectronics with id := 2 } (by decide) (by decide)

/-! ### Claim C4 -/

/-- C4 counterexample: an update request that supplies no optional field
against a store with no matching row (here, an empty store) succeeds as
a no-op instead of failing with NotFound, contradicting the claim's
"including a request in which no optional field is present". -/
theorem claim4_counterexample :
    repoUpdate [] { id := 1 } 0 = .ok []
    ∧ repoUpdate [] { id := 1 } 0 ≠ .error .noRows := by
  decide

/-- C4 amended: when the update request supplies at least one optional
field and its id matches no row, the store's `Update` fails with
NotFound (zero rows affected); a request with no optional field present
is a no-op success regardless of whether the id exists. -/
theorem claim4_update_missing_row (db : List Product)
    (r : UpdateProductRequest) (now : Nat) :
    (updateFieldsPresent r = true → (∀ p ∈ db, p.id ≠ r.id) →
      repoUpdate db r now = .error .noRows)
    ∧ (updateFieldsPresent r = false → repoUpdate db r now = .ok db) := by
  constructor
  · intro hp hmem
    have hany : (db.any fun p => p.id == r.id) = false := by
      rw [List.any_eq_false]
      intro p hpmem
      simp only [beq_iff_eq]
      exact hmem p hpmem
    simp [repoUpdate, hp, hany]
  · intro hp
    simp [repoUpdate, hp]

/-- C4 witness. -/
theorem claim4_witness :
    repoUpdate [sampleElectronics] { id := 99, name := some "N" } 7 = .error .noRows
    ∧ repoUpdate [sampleElectronics] { id := 99 } 7 = .ok [sampleElectronics] :=
  ⟨(claim4_update_missing_row [sampleElectronics] { id := 99, name := some "N" } 7).1
      (by decide) (by decide),
   (claim4_update_missing_row [sampleElectronics] { id := 99 } 7).2 (by decide)⟩

/-! ### Claim C7 -/

/-- C7: each validator collects every violated rule in its single pass —
whenever a field rule is violated, the returned collection carries an
entry keyed by that field, regardless of which other rules are violated
at the same time (no fail-fast truncation), for create, update and
list-filter requests alike. -/
theorem claim7_validators_collect_all_violations
    (r : CreateProductRequest) (u : UpdateProductRequest)
    (f : ListProductFilter) :
    (isEmptyStr r.sku = true → hasFieldErr (createValidate r) "sku" = true)
    ∧ (goLen r.sku > 100 → hasFieldErr (createValidate r) "sku" = true)
    ∧ (isEmptyStr r.name = true → hasFieldErr (createValidate r) "name" = true)
    ∧ (r.price < 0 → hasFieldErr (createValidate r) "price" = true)
    ∧ (r.price > maxPriceCents → hasFieldErr (createValidate r) "price" = true)
    ∧ (r.stock < 0 → hasFieldErr (createValidate r) "stock" = true)
    ∧ (isEmptyStr r.category = true → hasFieldErr (createValidate r) "category" = true)
    ∧ (goLen r.category > 100 → hasFieldErr (createValidate r) "category" = true)
    ∧ (r.status ≠ productStatusActive → r.status ≠ productStatusInactive →
        hasFieldErr (createValidate r) "status" = true)
    ∧ (u.id ≤ 0 → hasFieldErr (updateValidate u) "id" = true)
    ∧ (∀ s, u.sku = some s → isEmptyStr s = true →
        hasFieldErr (updateValidate u) "sku" = true)
    ∧ (∀ s, u.sku = some s → goLen s > 100 →
        hasFieldErr (updateValidate u) "sku" = true)
    ∧ (∀ s, u.name = some s → isEmptyStr s = true →
        hasFieldErr (updateValidate u) "name" = true)
    ∧ (∀ v, u.price = some v → v < 0 →
        hasFieldErr (updateValidate u) "price" = true)
    ∧ (∀ v, u.price = some v → v > maxPriceCents →
        hasFieldErr (updateValidate u) "price" = true)
    ∧ (∀ v, u.stock = some v → v < 0 →
        hasFieldErr (updateValidate u) "stock" = true)
    ∧ (∀ s, u.category = some s → isEmptyStr s = true →
        hasFieldErr (updateValidate u) "category" = true)
    ∧ (∀ s, u.category = some s → goLen s > 100 →
        hasFieldErr (updateValidate u) "category" = true)
    ∧ (∀ s, u.status = some s → s ≠ productStatusActive →
        s ≠ productStatusInactive → hasFieldErr (updateValidate u) "status" = true)
    ∧ (∀ s, u.imageURL = some s → goLen s > 2048 →
        hasFieldErr (updateValidate u) "image_url" = true)
    ∧ (f.page < 0 → hasFieldErr (filterValidate f).2 "page" = true)
    ∧ (f.limit < 0 → hasFieldErr (filterValidate f).2 "limit" = true)
    ∧ (defaultedLimit f > 100 → hasFieldErr (filterValidate f).2 "limit" = true)
    ∧ (∀ v, f.minPrice = some v → v < 0 →
        hasFieldErr (filterValidate f).2 "min_price" = true)
    ∧ (∀ v, f.maxPrice = some v → v < 0 →
        hasFieldErr (filterValidate f).2 "max_price" = true)
    ∧ (∀ lo hi, f.minPrice = some lo → f.maxPrice = some hi → lo > hi →
        hasFieldErr (filterValidate f).2 "price" = true)
    ∧ (f.sortBy ≠ "" → isInSlice f.sortBy validSortFields = false →
        hasFieldErr (filterValidate f).2 "sort_by" = true)
    ∧ (f.sortOrder ≠ "" → isInSlice f.sortOrder validSortOrders = false →
        hasFieldErr (filterValidate f).2 "sort_order" = true)
    ∧ (∀ s, f.status = some s → s ≠ productStatusActive →
        s ≠ productStatusInactive → hasFieldErr (filterValidate f).2 "status" = true) := by
  refine ⟨?_, ?_, ?_, ?_, ?_, ?_, ?_, ?_, ?_, ?_, ?_, ?_, ?_, ?_, ?_, ?_, ?_,
    ?_, ?_, ?_, ?_, ?_, ?_, ?_, ?_, ?_, ?_, ?_, ?_⟩ <;>
    intros <;>
    simp [createValidate, updateValidate, filterValidate, hasFieldErr,
      List.any_append, pageErrs, limitNegErrs, limitMaxErrs, minPriceErrs,
      maxPriceErrs, priceRangeErrs, sortByErrs, sortOrderErrs, statusErrs, *]

/-- C7 witness: the spec's own example — empty sku, negative price and
empty category in one create request produce an entry for each of the
three fields. -/
theorem claim7_witness :
    hasFieldErr (createValidate
      { sku := "", name := "X", price := -1, stock := 0, category := "",
        status := "Active" }) "sku" = true
    ∧ hasFieldErr (createValidate
      { sku := "", name := "X", price := -1, stock := 0, category := "",
        status := "Active" }) "price" = true
    ∧ hasFieldErr (createValidate
      { sku := "", name := "X", price := -1, stock := 0, category := "",
        status := "Active" }) "category" = true :=
  ⟨(claim7_validators_collect_all_violations
      { sku := "", name := "X", price := -1, stock := 0, category := "",
        status := "Active" } { id := 1 } {}).1 (by decide),
   (claim7_validators_collect_all_violations
      { sku := "", name := "X", price := -1, stock := 0, category := "",
        status := "Active" } { id := 1 } {}).2.2.2.1 (by decide),
   (claim7_validators_collect_all_violations
      { sku := "", name := "X", price := -1, stock := 0, category := "",
        status := "Active" } { id := 1 } {}).2.2.2.2.2.2.1 (by decide)⟩

/-! ### Claim C8 -/

theorem hasFieldErr_ite_singleton (c : Prop) [Decidable c]
    (e : ValidationError) (g : String) (hne : (e.field == g) = false) :
    hasFieldErr (if c then [e] else []) g = false := by
  by_cases h : c <;> simp [hasFieldErr, h, hne]

theorem hasFieldErr_filterValidate (f : ListProductFilter) (g : String) :
    hasFieldErr (filterValidate f).2 g
      = (hasFieldErr (pageErrs f) g || hasFieldErr (limitNegErrs f) g
        || hasFieldErr (limitMaxErrs f) g || hasFieldErr (minPriceErrs f) g
        || hasFieldErr (maxPriceErrs f) g || hasFieldErr (priceRangeErrs f) g
        || hasFieldErr (sortByErrs f) g || hasFieldErr (sortOrderErrs f) g
        || hasFieldErr (statusErrs f) g) := by
  simp [filterValidate, hasFieldErr, List.any_append, Bool.or_assoc]

theorem pageErrs_other (f : ListProductFilter) (g : String)
    (hne : (("page" : String) == g) = false) :
    hasFieldErr (pageErrs f) g = false := by
  unfold pageErrs
  exact hasFieldErr_ite_singleton _ _ _ hne

theorem limitNegErrs_other (f : ListProductFilter) (g : String)
    (hne : (("limit" : String) == g) = false) :
    hasFieldErr (limitNegErrs f) g = false := by
  unfold limitNegErrs
  exact hasFieldErr_ite_singleton _ _ _ hne

theorem limitMaxErrs_other (f : ListProductFilter) (g : String)
    (hne : (("limit" : String) == g) = false) :
    hasFieldErr (limitMaxErrs f) g = false := by
  unfold limitMaxErrs
  exact hasFieldErr_ite_singleton _ _ _ hne

theorem minPriceErrs_other (f : ListProductFilter) (g : String)
    (hne : (("min_price" : String) == g) = false) :
    hasFieldErr (minPriceErrs f) g = false := by
  unfold minPriceErrs
  cases f.minPrice with
  | none => rfl
  | some v => exact hasFieldErr_ite_singleton _ _ _ hne

theorem maxPriceErrs_other (f : ListProductFilter) (g : String)
    (hne : (("max_price" : String) == g) = false) :
    hasFieldErr (maxPriceErrs f) g = false := by
  unfold maxPriceErrs
  cases f.maxPrice with
  | none => rfl
  | some v => exact hasFieldErr_ite_singleton _ _ _ hne

theorem priceRangeErrs_other (f : ListProductFilter) (g : String)
    (hne : (("price" : String) == g) = false) :
    hasFieldErr (priceRangeErrs f) g = false := by
  unfold priceRangeErrs
  cases f.minPrice with
  | none => cases f.maxPrice <;> rfl
  | some lo =>
    cases f.maxPrice with
    | none => rfl
    | some hi => exact hasFieldErr_ite_singleton _ _ _ hne

theorem sortByErrs_other (f : ListProductFilter) (g : String)
    (hne : (("sort_by" : String) == g) = false) :
    hasFieldErr (sortByErrs f) g = false := by
  unfold sortByErrs
  exact hasFieldErr_ite_singleton _ _ _ hne

theorem sortOrderErrs_other (f : ListProductFilter) (g : String)
    (hne : (("sort_order" : String) == g) = false) :
    hasFieldErr (sortOrderErrs f) g = false := by
  unfold sortOrderErrs
  exact hasFieldErr_ite_singleton _ _ _ hne

theorem statusErrs_other (f : ListProductFilter) (g : String)
    (hne : (("status" : String) == g) = false) :
    hasFieldErr (statusErrs f) g = false := by
  unfold statusErrs
  cases f.status with
  | none => rfl
  | some s => exact hasFieldErr_ite_singleton _ _ _ hne

theorem handler_rejects_of_hasFieldErr (db : List Product)
    (f : ListProductFilter) (g : String)
    (h : hasFieldErr (filterValidate f).2 g = true) :
    listProductsHandler db f = .error (filterValidate f).2 := by
  have hne : (filterValidate f).2.isEmpty = false := by
    cases herrs : (filterValidate f).2 with
    | nil =>
      rw [herrs] at h
      simp [hasFieldErr] at h
    | cons a l => rfl
  simp [listProductsHandler, hne]

/-- C8: a supplied sort field outside the allow-list, or a supplied sort
order other than asc/desc, is rejected with a field error and the
handler fails before any repository call, so the value never reaches
the ORDER BY construction; an unsupplied sort field/order is defaulted
to created_at/desc without a field error; and whenever validation
passes, the column and direction the repository interpolates into ORDER
BY come from the allow-lists. -/
theorem claim8_sort_allowlist (f : ListProductFilter) :
    (f.sortBy ≠ "" → isInSlice f.sortBy validSortFields = false →
      hasFieldErr (filterValidate f).2 "sort_by" = true
      ∧ ∀ db, listProductsHandler db f = .error (filterValidate f).2)
    ∧ (f.sortOrder ≠ "" → isInSlice f.sortOrder validSortOrders = false →
      hasFieldErr (filterValidate f).2 "sort_order" = true
      ∧ ∀ db, listProductsHandler db f = .error (filterValidate f).2)
    ∧ (f.sortBy = "" →
      (filterValidate f).1.sortBy = "created_at"
      ∧ hasFieldErr (filterValidate f).2 "sort_by" = false)
    ∧ (f.sortOrder = "" →
      (filterValidate f).1.sortOrder = "desc"
      ∧ hasFieldErr (filterValidate f).2 "sort_order" = false)
    ∧ ((filterValidate f).2 = [] →
      isInSlice (repoOrderColumn (filterValidate f).1) validSortFields = true
      ∧ (repoOrderDir (filterValidate f).1 = "asc"
        ∨ repoOrderDir (filterValidate f).1 = "desc")) := by
  refine ⟨?_, ?_, ?_, ?_, ?_⟩
  · intro h1 h2
    have hblk : hasFieldErr (sortByErrs f) "sort_by" = true := by
      simp [sortByErrs, hasFieldErr, h1, h2]
    have hmem : hasFieldErr (filterValidate f).2 "sort_by" = true := by
      rw [hasFieldErr_filterValidate]
      simp [hblk]
    exact ⟨hmem, fun db => handler_rejects_of_hasFieldErr db f "sort_by" hmem⟩
  · intro h1 h2
    have hblk : hasFieldErr (sortOrderErrs f) "sort_order" = true := by
      simp [sortOrderErrs, hasFieldErr, h1, h2]
    have hmem : hasFieldErr (filterValidate f).2 "sort_order" = true := by
      rw [hasFieldErr_filterValidate]
      simp [hblk]
    exact ⟨hmem, fun db => handler_rejects_of_hasFieldErr db f "sort_order" hmem⟩
  · intro h
    refine ⟨by simp [filterValidate, validatedSortBy, h], ?_⟩
    have hsb : sortByErrs f = [] := by simp [sortByErrs, h]
    rw [hasFieldErr_filterValidate,
      pageErrs_other f _ (by decide), limitNegErrs_other f _ (by decide),
      limitMaxErrs_other f _ (by decide), minPriceErrs_other f _ (by decide),
      maxPriceErrs_other f _ (by decide), priceRangeErrs_other f _ (by decide),
      sortOrderErrs_other f _ (by decide), statusErrs_other f _ (by decide), hsb]
    rfl
  · intro h
    refine ⟨by simp [filterValidate, validatedSortOrder, h], ?_⟩
    have hso : sortOrderErrs f = [] := by simp [sortOrderErrs, h]
    rw [hasFieldErr_filterValidate,
      pageErrs_other f _ (by decide), limitNegErrs_other f _ (by decide),
      limitMaxErrs_other f _ (by decide), minPriceErrs_other f _ (by decide),
      maxPriceErrs_other f _ (by decide), priceRangeErrs_other f _ (by decide),
      sortByErrs_other f _ (by decide), statusErrs_other f _ (by decide), hso]
    rfl
  · intro herrs
    have hall : pageErrs f ++ limitNegErrs f ++ limitMaxErrs f
        ++ minPriceErrs f ++ maxPriceErrs f ++ priceRangeErrs f
        ++ sortByErrs f ++ sortOrderErrs f ++ statusErrs f = [] := by
      simpa [filterValidate] using herrs
    rw [List.append_eq_nil] at hall
    obtain ⟨hrest, hst⟩ := hall
    rw [List.append_eq_nil] at hrest
    obtain ⟨hrest, hso⟩ := hrest
    rw [List.append_eq_nil] at hrest
    obtain ⟨hrest, hsb⟩ := hrest
    constructor
    · by_cases hb : f.sortBy = ""
      · have hcol : repoOrderColumn (filterValidate f).1 = "created_at" := by
          simp [filterValidate, validatedSortBy, repoOrderColumn, hb]
        rw [hcol]
        decide
      · have hin : isInSlice f.sortBy validSortFields = true := by
          by_contra hfalse
          have hfalse2 : isInSlice f.sortBy validSortFields = false :=
            Bool.eq_false_iff.mpr hfalse
          have : sortByErrs f ≠ [] := by
            simp [sortByErrs, hb, hfalse2]
          exact this hsb
        have hcol : repoOrderColumn (filterValidate f).1 = f.sortBy := by
          simp [filterValidate, validatedSortBy, repoOrderColumn, hb]
        rw [hcol]
        exact hin
    · by_cases hb : f.sortOrder = ""
      · have hdir : repoOrderDir (filterValidate f).1 = "desc" := by
          simp [filterValidate, validatedSortOrder, repoOrderDir, hb]
        rw [hdir]
        exact Or.inr rfl
      · have hin : isInSlice f.sortOrder validSortOrders = true := by
          by_contra hfalse
          have hfalse2 : isInSlice f.sortOrder validSortOrders = false :=
            Bool.eq_false_iff.mpr hfalse
          have : sortOrderErrs f ≠ [] := by
            simp [sortOrderErrs, hb, hfalse2]
          exact this hso
        have hdir : repoOrderDir (filterValidate f).1 = f.sortOrder := by
          simp [filterValidate, validatedSortOrder, repoOrderDir, hb]
        rw [hdir]
        have hmem : f.sortOrder ∈ validSortOrders := by
          simpa [isInSlice] using hin
        simpa [validSortOrders] using hmem

/-- C8 witness. -/
theorem claim8_witness :
    hasFieldErr (filterValidate { sortBy := "description" }).2 "sort_by" = true
    ∧ listProductsHandler [] { sortBy := "description" }
        = .error (filterValidate { sortBy := "description" }).2
    ∧ (filterValidate ({} : ListProductFilter)).1.sortBy = "created_at"
    ∧ (filterValidate ({} : ListProductFilter)).1.sortOrder = "desc" :=
  ⟨((claim8_sort_allowlist { sortBy := "description" }).1
      (by decide) (by decide)).1,
   ((claim8_sort_allowlist { sortBy := "description" }).1
      (by decide) (by decide)).2 [],
   ((claim8_sort_allowlist {}).2.2.1 rfl).1,
   ((claim8_sort_allowlist {}).2.2.2.1 rfl).1⟩

/-! ### Claim C9 -/

/-- C9 counterexample: a list result with total 0 still carries the
arithmetic showing string `Showing 1 to 0 of 0 products` — the summary
is not empty or omitted as the claim states. -/
theorem claim9_counterexample :
    (listProducts { page := 1, limit := 20 } [] 0).showing
      = "Showing 1 to 0 of 0 products"
    ∧ (listProducts { page := 1, limit := 20 } [] 0).showing ≠ "" := by
  decide

/-- C9 amended: for every list result whose total matching count is 0
(hence no returned rows), the showing summary is still the arithmetic
string computed from page and limit — `Showing (page-1)*limit+1 to
(page-1)*limit of 0 products`, a nonsensical inverted span — and is
never empty or omitted. -/
theorem claim9_showing_always_arithmetic (f : ListProductFilter)
    (products : List Product) (total : Int)
    (htotal : total = 0) (hps : products = []) :
    (listProducts f products total).showing
      = "Showing " ++ toString ((f.page - 1) * f.limit + 1) ++ " to "
        ++ toString ((f.page - 1) * f.limit) ++ " of " ++ toString (0 : Int)
        ++ " products"
    ∧ (listProducts f products total).showing ≠ "" := by
  subst htotal hps
  constructor
  · have harith : (f.page - 1) * f.limit + 1 + ((0 : Nat) : Int) - 1
        = (f.page - 1) * f.limit := by omega
    simp only [listProducts, List.map_nil, List.length_nil, harith]
  · have key : ∀ s t : String, s.data ≠ [] → (s ++ t).data ≠ [] := by
      intro s t hs h
      rw [String.data_append] at h
      exact hs (List.append_eq_nil.mp h).1
    intro hc
    simp only [listProducts] at hc
    exact key _ _ (key _ _ (key _ _ (key _ _ (key _ _ (key _ _ (by decide))))))
      (congrArg String.data hc)

/-! ### Claim C5 -/

/-- C5 counterexample: an update request with a present field (a sku
that duplicates a different row's sku) against an existing product
fails with the unique-violation error, so no field changes and
updated_at is NOT refreshed — refuting the claim's "updated_at is
refreshed whenever at least one field is present" for arbitrary update
requests against existing products. -/
theorem claim5_counterexample :
    updateFieldsPresent { id := 1, sku := some "SKU-002" } = true
    ∧ sampleElectronics.id
        = ({ id := 1, sku := some "SKU-002" } : UpdateProductRequest).id
    ∧ repoUpdate [sampleElectronics, sampleBooks]
        { id := 1, sku := some "SKU-002" } 9 = .error .uniqueViolation
    ∧ repoUpdate [sampleElectronics, sampleBooks]
        { id := 1, sku := some "SKU-002" } 9
      ≠ .ok ([sampleElectronics, sampleBooks].map fun p =>
          if p.id == (1 : Int)
          then applyUpdate { id := 1, sku := some "SKU-002" } 9 p else p) := by
  decide

/-- C5 amended: for an update request against an existing product that
supplies at least one field, when the supplied sku (if present) does
not duplicate a different row's sku, the store's `Update` rewrites
exactly the matching rows through `applyUpdate` (all other rows are
untouched by the map) and `applyUpdate` changes exactly the supplied
fields — every absent field keeps its prior value, every present field
takes the supplied value, id and created_at are never touched, and
updated_at is refreshed to now; when the supplied sku does duplicate a
different row's sku, `Update` instead fails with the unique-violation
error (23505, mapped to `ErrProductSKUExists`) and nothing, including
updated_at, changes. -/
theorem claim5_partial_update_frame (db : List Product)
    (r : UpdateProductRequest) (now : Nat)
    (hp : updateFieldsPresent r = true)
    (hex : ∃ p ∈ db, p.id = r.id) :
    ((∀ s, r.sku = some s → ∀ p ∈ db, p.id ≠ r.id → p.sku ≠ s) →
      repoUpdate db r now
        = .ok (db.map fun p => if p.id == r.id then applyUpdate r now p else p))
    ∧ (∀ s, r.sku = some s → (∃ p ∈ db, p.id ≠ r.id ∧ p.sku = s) →
      repoUpdate db r now = .error .uniqueViolation)
    ∧ ∀ p : Product,
        (applyUpdate r now p).id = p.id
      ∧ (applyUpdate r now p).createdAt = p.createdAt
      ∧ (applyUpdate r now p).updatedAt = now
      ∧ (r.sku = none → (applyUpdate r now p).sku = p.sku)
      ∧ (∀ v, r.sku = some v → (applyUpdate r now p).sku = v)
      ∧ (r.name = none → (applyUpdate r now p).name = p.name)
      ∧ (∀ v, r.name = some v → (applyUpdate r now p).name = v)
      ∧ (r.description = none → (applyUpdate r now p).description = p.description)
      ∧ (∀ v, r.description = some v → (applyUpdate r now p).description = some v)
      ∧ (r.price = none → (applyUpdate r now p).price = p.price)
      ∧ (∀ v, r.price = some v → (applyUpdate r now p).price = v)
      ∧ (r.stock = none → (applyUpdate r now p).stock = p.stock)
      ∧ (∀ v, r.stock = some v → (applyUpdate r now p).stock = v)
      ∧ (r.category = none → (applyUpdate r now p).category = p.category)
      ∧ (∀ v, r.category = some v → (applyUpdate r now p).category = v)
      ∧ (r.status = none → (applyUpdate r now p).status = p.status)
      ∧ (∀ v, r.status = some v → (applyUpdate r now p).status = v)
      ∧ (r.imageURL = none → (applyUpdate r now p).imageURL = p.imageURL)
      ∧ (∀ v, r.imageURL = some v → (applyUpdate r now p).imageURL = some v) := by
  obtain ⟨q, hq, hid⟩ := hex
  have hany : (db.any fun p => p.id == r.id) = true :=
    List.any_eq_true.mpr ⟨q, hq, by simp [hid]⟩
  refine ⟨?_, ?_, ?_⟩
  · intro hnc
    have hcol : skuCollides db r = false := by
      cases hs : r.sku with
      | none => simp [skuCollides, hs]
      | some s =>
        simp only [skuCollides, hs]
        rw [List.any_eq_false]
        intro p hpmem hcontra
        rw [Bool.and_eq_true] at hcontra
        obtain ⟨hne, hskueq⟩ := hcontra
        exact hnc s hs p hpmem
          (by simpa using hne) (by simpa using hskueq)
    simp [repoUpdate, hp, hany, hcol]
  · intro s hs hcoll
    obtain ⟨p, hpmem, hpne, hpsku⟩ := hcoll
    have hcol : skuCollides db r = true := by
      simp only [skuCollides, hs]
      exact List.any_eq_true.mpr ⟨p, hpmem, by simp [hpne, hpsku]⟩
    simp [repoUpdate, hp, hany, hcol]
  · intro p
    refine ⟨rfl, rfl, rfl, ?_, ?_, ?_, ?_, ?_, ?_, ?_, ?_, ?_, ?_, ?_, ?_, ?_,
      ?_, ?_, ?_⟩ <;>
      intros <;> simp [applyUpdate, *]

/-- C5 witness. -/
theorem claim5_witness :
    repoUpdate [sampleElectronics] { id := 1, name := some "TV-2" } 9
      = .ok ([sampleElectronics].map fun p =>
          if p.id == ({ id := 1, name := some "TV-2" } : UpdateProductRequest).id
          then applyUpdate { id := 1, name := some "TV-2" } 9 p else p)
    ∧ repoUpdate [sampleElectronics, sampleBooks]
        { id := 1, sku := some "SKU-002" } 9 = .error .uniqueViolation
    ∧ (applyUpdate { id := 1, name := some "TV-2" } 9 sampleElectronics).id
        = sampleElectronics.id :=
  ⟨(claim5_partial_update_frame [sampleElectronics] { id := 1, name := some "TV-2" } 9
      (by decide) ⟨sampleElectronics, by simp, by decide⟩).1
      (fun s hs => nomatch hs),
   (claim5_partial_update_frame [sampleElectronics, sampleBooks]
      { id := 1, sku := some "SKU-002" } 9 (by decide)
      ⟨sampleElectronics, by simp, by decide⟩).2.1 "SKU-002" rfl
      ⟨sampleBooks, by simp, by decide, by decide⟩,
   ((claim5_partial_update_frame [sampleElectronics] { id := 1, name := some "TV-2" } 9
      (by decide) ⟨sampleElectronics, by simp, by decide⟩).2.2 sampleElectronics).1⟩

/-! ### Claim C6 -/

/-- C6: `UploadImage` rejects a missing file with ImageRequired, a file
over 5 MiB with ImageTooLarge, and a file whose (case-insensitively
lowered) extension is outside {.jpg, .jpeg, .png, .gif} with
InvalidImageFormat — in each case with an empty call trace: no GetByID,
no blob write, no URL computation and no row update happen before these
gates, and neither store is modified. -/
theorem claim6_gates_before_any_call (baseURL : String) (db : List Product)
    (blobs : List String) (id : Int) (fh : Option FileHeader) (now : Nat) :
    (fh = none →
      uploadImage baseURL db blobs id fh now
        = { res := some .imageRequired, db := db, blobs := blobs, events := [] })
    ∧ (∀ h, fh = some h → h.size > maxFileSize →
      uploadImage baseURL db blobs id fh now
        = { res := some .imageTooLarge, db := db, blobs := blobs, events := [] })
    ∧ (∀ h, fh = some h → h.size ≤ maxFileSize →
        allowedExts.contains (strToLower (filepathExt h.filename)) = false →
      uploadImage baseURL db blobs id fh now
        = { res := some .invalidImageFormat, db := db, blobs := blobs, events := [] }) := by
  refine ⟨?_, ?_, ?_⟩
  · rintro rfl
    rfl
  · rintro h rfl hsize
    simp [uploadImage, hsize]
  · rintro h rfl hsize hext
    have hns : ¬(h.size > maxFileSize) := not_lt.mpr hsize
    have hext2 : strToLower (filepathExt h.filename) ∉ allowedExts := by
      simpa using hext
    simp [uploadImage, hns, hext2]

/-- C6 witness. -/
theorem claim6_witness :
    uploadImage "u" [] [] 1 none 0
      = { res := some .imageRequired, db := [], blobs := [], events := [] }
    ∧ uploadImage "u" [] [] 1 (some { filename := "big.jpg", size := 6291456 }) 0
      = { res := some .imageTooLarge, db := [], blobs := [], events := [] }
    ∧ uploadImage "u" [] [] 1 (some { filename := "doc.pdf", size := 100 }) 0
      = { res := some .invalidImageFormat, db := [], blobs := [], events := [] } :=
  ⟨(claim6_gates_before_any_call "u" [] [] 1 none 0).1 rfl,
   (claim6_gates_before_any_call "u" [] [] 1
      (some { filename := "big.jpg", size := 6291456 }) 0).2.1 _ rfl (by decide),
   (claim6_gates_before_any_call "u" [] [] 1
      (some { filename := "doc.pdf", size := 100 }) 0).2.2 _ rfl (by decide) (by decide)⟩

/-! ### Claim C10 -/

/-- C10: every product view the public operations return (create, get by
id, get by SKU, list) carries an `image_url` that is never the empty
string (it is absent instead), and the projection sends a stored empty
string to the same absent value as a stored null — a client cannot
distinguish the two. -/
theorem claim10_image_url_never_empty :
    (∀ p : Product, (toProductResponse p).imageURL ≠ some "")
    ∧ (∀ db id resp, getProduct db id = .ok resp → resp.imageURL ≠ some "")
    ∧ (∀ db sku resp, getProductBySKU db sku = .ok resp → resp.imageURL ≠ some "")
    ∧ (∀ db req now newId resp db1,
        createProduct db req now newId = .ok (resp, db1) → resp.imageURL ≠ some "")
    ∧ (∀ f products total resp,
        resp ∈ (listProducts f products total).products → resp.imageURL ≠ some "")
    ∧ (∀ p : Product, p.imageURL = some "" →
        (toProductResponse p).imageURL
          = (toProductResponse { p with imageURL := none }).imageURL) := by
  have base : ∀ p : Product, (toProductResponse p).imageURL ≠ some "" := by
    intro p
    unfold toProductResponse
    cases hi : p.imageURL with
    | none => simp
    | some s =>
      by_cases hs : s == ""
      · simp [hs]
      · simp only [hs, Bool.false_eq_true, if_false, ne_eq, Option.some.injEq]
        exact fun h => absurd (by simp [h] : (s == "") = true) (by simp [hs])
  refine ⟨base, ?_, ?_, ?_, ?_, ?_⟩
  · intro db id resp h
    unfold getProduct at h
    split at h
    · exact absurd h (by simp)
    · exact absurd h (by simp)
    · rename_i p _
      injection h with h2
      exact h2 ▸ base p
  · intro db sku resp h
    unfold getProductBySKU at h
    split at h
    · exact absurd h (by simp)
    · exact absurd h (by simp)
    · rename_i p _
      injection h with h2
      exact h2 ▸ base p
  · intro db req now newId resp db1 h
    unfold createProduct at h
    split at h
    · exact absurd h (by simp)
    · exact absurd h (by simp)
    · rename_i created db2 _
      injection h with h2
      injection h2 with h3 _
      exact h3 ▸ base created
  · intro f products total resp hmem
    simp only [listProducts, List.mem_map] at hmem
    obtain ⟨p, _, rfl⟩ := hmem
    exact base p
  · intro p h
    simp [toProductResponse, h]

/-- C10 witness: the delete-image stored state (`image_url` persisted as
the empty string) projects to an absent image, equal to the projection
of a never-imaged product. -/
theorem claim10_witness :
    (toProductResponse { sampleElectronics with imageURL := some "" }).imageURL ≠ some ""
    ∧ (toProductResponse { sampleElectronics with imageURL := some "" }).imageURL
        = (toProductResponse { { sampleElectronics with imageURL := some "" } with
            imageURL := none }).imageURL :=
  ⟨claim10_image_url_never_empty.1 { sampleElectronics with imageURL := some "" },
   claim10_image_url_never_empty.2.2.2.2.2 { sampleElectronics with imageURL := some "" } rfl⟩

/-- C9 witness. -/
theorem claim9_witness :
    (listProducts { page := 3, limit := 20 } [] 0).showing
      = "Showing " ++ toString (((3 : Int) - 1) * 20 + 1) ++ " to "
        ++ toString (((3 : Int) - 1) * 20) ++ " of " ++ toString (0 : Int)
        ++ " products"
    ∧ (listProducts { page := 3, limit := 20 } [] 0).showing ≠ "" :=
  claim9_showing_always_arithmetic { page := 3, limit := 20 } [] 0 rfl rfl

end ProductSpec
